import Mathlib

namespace Flapi

/-!
# Flapi wire protocol and session layer: a shallow embedding

This file embeds the protocol core of the Flapi repository in Lean 4 and
proves/refutes the specification's claims about it.

Bytes are modelled as `Nat` (Python `bytes` elements are integers in
0..255); byte strings are `List Nat`.  Python exceptions are modelled by
an explicit error type, and fallible code returns `PyResult`.

Sources embedded here:
* `src/flapi/server/consts.py` — protocol constants and enumerations;
* `src/src/client/flapi_client/client.py` — `FlapiMsg` (frame codec:
  `__init__` decode branch, `append`, `to_bytes`);
* `src/flapi/client/comms.py` — `FlapiComms.send_message` /
  `try_receive_message` (reassembly loop);
* `src/flapi/client/base_client.py` — `FlapiBaseClient.goodbye`,
  `__receive_and_dispatch`, `assert_response_is_ok`;
* `src/flapi/server/device_flapi_receive.py` — server `OnSysEx`,
  `client_hello`, `client_goodbye`, `version_query`, `fl_exec`, `fl_eval`,
  `message_handlers`, `connected_clients`;
* `src/flapi/server/flapi_response.py` — `FlapiResponse` message builders;
* `src/flapi/server/device_flapi_respond.py` — relay `OnSysEx`;
* `src/flapi/__enable.py` — `version_check`.
-/

/-! ## Constants (`src/flapi/server/consts.py`) -/

/-- `SYSEX_HEADER`: marker prefix for Flapi sysex messages (excluding the
`0xF0` status byte). -/
def SYSEX_HEADER : List Nat := [0x7D, 0x46, 0x6C, 0x61, 0x70, 0x69]

/-- `VERSION = (1, 0, 0)`. -/
def VERSION : Nat × Nat × Nat := (1, 0, 0)

/-- `MessageOrigin.CLIENT`. -/
def MessageOrigin.CLIENT : Nat := 0x00

/-- `MessageOrigin.SERVER`. -/
def MessageOrigin.SERVER : Nat := 0x01

/-- `MessageOrigin.INTERNAL`. -/
def MessageOrigin.INTERNAL : Nat := 0x02

/-- Membership test for the `MessageOrigin` enumeration: Python
`MessageOrigin(x)` raises `ValueError` unless `x` is one of the members. -/
def MessageOrigin.valid (n : Nat) : Bool := n ≤ 2

/-- `MessageType.CLIENT_HELLO`. -/
def MessageType.CLIENT_HELLO : Nat := 0x00

/-- `MessageType.CLIENT_GOODBYE`. -/
def MessageType.CLIENT_GOODBYE : Nat := 0x01

/-- `MessageType.SERVER_GOODBYE`. -/
def MessageType.SERVER_GOODBYE : Nat := 0x02

/-- `MessageType.VERSION_QUERY`. -/
def MessageType.VERSION_QUERY : Nat := 0x03

/-- `MessageType.EXEC`. -/
def MessageType.EXEC : Nat := 0x04

/-- `MessageType.EVAL`. -/
def MessageType.EVAL : Nat := 0x05

/-- `MessageType.STDOUT`. -/
def MessageType.STDOUT : Nat := 0x06

/-- Membership test for the `MessageType` enumeration (members 0x00–0x06). -/
def MessageType.valid (n : Nat) : Bool := n ≤ 6

/-- `MessageStatus.OK`. -/
def MessageStatus.OK : Nat := 0x00

/-- `MessageStatus.ERR`. -/
def MessageStatus.ERR : Nat := 0x01

/-- `MessageStatus.FAIL`. -/
def MessageStatus.FAIL : Nat := 0x02

/-- Membership test for the `MessageStatus` enumeration. -/
def MessageStatus.valid (n : Nat) : Bool := n ≤ 2

/-- `DEVICE_ENQUIRY_MESSAGE` (without the `0xF0`/`0xF7` framing, as stored
by Mido). -/
def DEVICE_ENQUIRY_MESSAGE : List Nat := [0x7E, 0x00, 0x06, 0x01]

/-- Python exceptions raised by the embedded code. -/
inductive PyError where
  /-- `FlapiInvalidMsgError` -/
  | invalidMsg
  /-- `AssertionError` (a failing `assert` statement) -/
  | assertionError
  /-- `ValueError` (e.g. an invalid `IntEnum` conversion) -/
  | valueError
  /-- `IndexError` (out-of-range sequence subscript) -/
  | indexError
  /-- `KeyError` (missing `dict` key) -/
  | keyError
  /-- `FlapiClientError` -/
  | clientError
  /-- `FlapiServerError` -/
  | serverError
  /-- an application exception re-raised from an `ERR` response -/
  | appException
deriving DecidableEq

/-- Result of running a piece of Python code: a value, or a raised
exception. -/
inductive PyResult (α : Type) where
  | ok (val : α)
  | error (e : PyError)
deriving DecidableEq

/-! ## Frame codec: `FlapiMsg` (`src/src/client/flapi_client/client.py`) -/

/-- A Flapi protocol frame, as stored by the `FlapiMsg` wrapper class. -/
structure FlapiMsg where
  origin : Nat
  client_id : Nat
  continuation : Bool
  msg_type : Nat
  status_code : Nat
  additional_data : List Nat
deriving DecidableEq

/-- `itertools.batched(data, n)`: split `xs` into consecutive chunks of at
most `n` elements.  Implemented with explicit fuel (one chunk consumes at
least one element when `0 < n`, so `xs.length` steps suffice) to keep the
definition kernel-reducible. -/
def batchedFuel (n : Nat) : Nat → List α → List (List α)
  | _, [] => []
  | 0, _ => []
  | fuel + 1, xs => xs.take n :: batchedFuel n fuel (xs.drop n)

/-- `list(itertools.batched(xs, n))` for `0 < n` (Python raises for `n < 1`,
which never happens in the source). -/
def batched (n : Nat) (xs : List α) : List (List α) :=
  batchedFuel n xs.length xs

/-- One physical buffer built by `FlapiMsg.to_bytes`: the sysex header, the
five header fields — with the loop variable `first` written, unnegated, into
the continuation slot, exactly as the source does — then the payload chunk.
(The leading `0xF0` / trailing `0xF7` are added by Mido on send.) -/
def FlapiMsg.mkBuf (m : FlapiMsg) (first : Bool) (data : List Nat) : List Nat :=
  SYSEX_HEADER ++
    [m.origin, m.client_id, if first then 1 else 0, m.msg_type, m.status_code]
    ++ data

/-- The encoding loop of `FlapiMsg.to_bytes`: iterate over the (already
reversed) chunk list with the `first` flag, which is `True` only on the
first iteration. -/
def toBytesAux (m : FlapiMsg) : Bool → List (List Nat) → List (List Nat)
  | _, [] => []
  | first, data :: rest => m.mkBuf first data :: toBytesAux m false rest

/-- `FlapiMsg.to_bytes(self)`: split `additional_data` into chunks of at
most `maxDataLen` (= `consts.MAX_DATA_LEN`, whose numeric value is not in
the sources, so it stays a parameter), iterate over the reversed chunk list
building buffers, inserting each at position 0 (hence the final
`.reverse`). -/
def FlapiMsg.to_bytes (maxDataLen : Nat) (m : FlapiMsg) : List (List Nat) :=
  (toBytesAux m true (batched maxDataLen m.additional_data).reverse).reverse

/-- `FlapiMsg.__init__` (decode branch): parse one full sysex message
(including the leading `0xF0` and trailing `0xF7`).  The header is checked
at `[1:7]`; `origin`/`status` go through their `IntEnum` constructors
(`ValueError` on a non-member); `client_id`, the continuation byte and
`msg_type` are read as plain bytes; the payload is `[12:-1]`. -/
def FlapiMsg.ofBytes (origin_data : List Nat) : PyResult FlapiMsg :=
  if ((origin_data.drop 1).take 6) ≠ SYSEX_HEADER then
    .error .invalidMsg
  else if origin_data.length < 12 then
    .error .indexError
  else if ¬ MessageOrigin.valid (origin_data.getD 7 0) then
    .error .valueError
  else if ¬ MessageStatus.valid (origin_data.getD 11 0) then
    .error .valueError
  else
    .ok
      { origin := origin_data.getD 7 0
        client_id := origin_data.getD 8 0
        continuation := origin_data.getD 9 0 ≠ 0
        msg_type := origin_data.getD 10 0
        status_code := origin_data.getD 11 0
        additional_data := (origin_data.drop 12).dropLast }

/-- `FlapiMsg.append(self, other)`: raises `FlapiInvalidMsgError` when the
continuation flag of the message in progress is not set; then `assert`s
that origin, client id, message type and status are identical (a mismatch
raises `AssertionError`); finally merges the data bytes. -/
def FlapiMsg.append (self other : FlapiMsg) : PyResult FlapiMsg :=
  if ¬ self.continuation then .error .invalidMsg
  else if self.origin ≠ other.origin then .error .assertionError
  else if self.client_id ≠ other.client_id then .error .assertionError
  else if self.msg_type ≠ other.msg_type then .error .assertionError
  else if self.status_code ≠ other.status_code then .error .assertionError
  else
    .ok { self with
          continuation := other.continuation
          additional_data := self.additional_data ++ other.additional_data }

/-- Mido wraps each outgoing data buffer in the sysex framing bytes. -/
def wrapSysex (buf : List Nat) : List Nat := 0xF0 :: (buf ++ [0xF7])

/-- The client reassembly loop (`FlapiComms.try_receive_message`, iterated):
construct a `FlapiMsg` from each wire buffer in turn, append it to the
message in progress (if any), and finish — returning the assembled
message — at the first point where the continuation flag of the message in
progress is false.  Returns `none` when the buffers run out with no
completed message. -/
def reassemble (pending : Option FlapiMsg) :
    List (List Nat) → PyResult (Option FlapiMsg)
  | [] => .ok none
  | buf :: rest =>
    match FlapiMsg.ofBytes (wrapSysex buf) with
    | .error e => .error e
    | .ok msg =>
      match
        (match pending with
         | some p => p.append msg
         | none => .ok msg) with
      | .error e => .error e
      | .ok merged =>
        if merged.continuation then reassemble (some merged) rest
        else .ok (some merged)

/-- `FlapiComms.send_message`: build a `FlapiMsg` with `CLIENT` origin (the
two-argument constructor branch sets `continuation = False` and defaults
`additional_data` to `b""`), and send each buffer of `to_bytes` on the
request port; the returned list is the sequence of port sends. -/
def send_message (maxDataLen client_id message_type status : Nat)
    (additional_data : Option (List Nat)) : List (List Nat) :=
  FlapiMsg.to_bytes maxDataLen
    { origin := MessageOrigin.CLIENT
      client_id := client_id
      continuation := false
      msg_type := message_type
      status_code := status
      additional_data := additional_data.getD [] }

/-! ## Python `str`/`int` on decimal integers

Used for the exit-code payload of `CLIENT_GOODBYE`
(`b64encode(str(code).encode())` on the way out,
`int(b64decode(data).decode())` on the way in). -/

/-- Little-endian base-10 digits of `n`, with explicit fuel (`n` steps
suffice, since `n / 10 < n` for `n > 0`). -/
def natDigitsFuel : Nat → Nat → List Nat
  | 0, _ => []
  | _ + 1, 0 => []
  | fuel + 1, n + 1 => (n + 1) % 10 :: natDigitsFuel fuel ((n + 1) / 10)

/-- Little-endian base-10 digits of `n` (empty for `0`). -/
def natDigits (n : Nat) : List Nat := natDigitsFuel n n

/-- Value of a little-endian base-10 digit list. -/
def valLE : List Nat → Nat
  | [] => 0
  | d :: ds => d + 10 * valLE ds

/-- Python `str(n)` for a natural number, as ASCII bytes. -/
def strOfNat (n : Nat) : List Nat :=
  if n = 0 then [48] else ((natDigits n).map (fun d => d + 48)).reverse

/-- Python `str(c)` for an integer, as ASCII bytes (`-` prefix when
negative). -/
def strOfInt (c : Int) : List Nat :=
  if c < 0 then 45 :: strOfNat c.natAbs else strOfNat c.toNat

/-- Python `int(s)` on a canonical decimal string (ASCII bytes): strip an
optional leading `-`, then read the digits. -/
def parseNat (ds : List Nat) : Nat :=
  valLE ((ds.map (fun c => c - 48)).reverse)

/-- Python `int(s)` on a canonical (possibly signed) decimal string. -/
def parseInt (ds : List Nat) : Int :=
  if ds.head? = some 45 then -(parseNat (ds.drop 1) : Int)
  else (parseNat ds : Int)

/-! ## `base64.b64encode` / `base64.b64decode` (RFC 4648)

The goodbye exit code and the textual payloads travel base64-encoded. -/

/-- The base64 alphabet: 6-bit value to ASCII code. -/
def b64char (n : Nat) : Nat :=
  if n < 26 then 65 + n
  else if n < 52 then 71 + n
  else if n < 62 then n - 4
  else if n = 62 then 43
  else 47

/-- Inverse of the base64 alphabet on its image. -/
def b64dchar (c : Nat) : Nat :=
  if 65 ≤ c ∧ c ≤ 90 then c - 65
  else if 97 ≤ c ∧ c ≤ 122 then c - 71
  else if 48 ≤ c ∧ c ≤ 57 then c + 4
  else if c = 43 then 62
  else 63

/-- `base64.b64encode`: 3 input bytes become 4 alphabet characters;
a 2-byte tail becomes 3 characters and one `=` (61), a 1-byte tail becomes
2 characters and two `=`. -/
def b64encode : List Nat → List Nat
  | a :: b :: c :: rest =>
    b64char (a / 4) :: b64char (a % 4 * 16 + b / 16) ::
      b64char (b % 16 * 4 + c / 64) :: b64char (c % 64) :: b64encode rest
  | [a, b] => [b64char (a / 4), b64char (a % 4 * 16 + b / 16),
      b64char (b % 16 * 4), 61]
  | [a] => [b64char (a / 4), b64char (a % 4 * 16), 61, 61]
  | [] => []

/-- `base64.b64decode` on well-formed base64 text. -/
def b64decode : List Nat → List Nat
  | c0 :: c1 :: c2 :: c3 :: rest =>
    if c2 = 61 then [b64dchar c0 * 4 + b64dchar c1 / 16]
    else if c3 = 61 then
      [b64dchar c0 * 4 + b64dchar c1 / 16,
       b64dchar c1 % 16 * 16 + b64dchar c2 / 4]
    else
      (b64dchar c0 * 4 + b64dchar c1 / 16) ::
        (b64dchar c1 % 16 * 16 + b64dchar c2 / 4) ::
        (b64dchar c2 % 4 * 64 + b64dchar c3) :: b64decode rest
  | _ => []

/-! ## `version_check` (`src/flapi/__enable.py`)

Python compares the `(major, minor, patch)` tuples lexicographically. -/

/-- Lexicographic `<` on version triples (Python tuple comparison). -/
def versionLt (a b : Nat × Nat × Nat) : Bool :=
  a.1 < b.1 ∨ (a.1 = b.1 ∧ (a.2.1 < b.2.1 ∨ (a.2.1 = b.2.1 ∧ a.2.2 < b.2.2)))

/-- The remediation named by the `FlapiVersionError` message raised by
`version_check`. -/
inductive VersionRemedy where
  /-- "Please update the server by running `flapi install`" -/
  | reinstallServer
  /-- "Please update the client using your Python package manager ...
  `pip install --upgrade flapi`" -/
  | upgradeClient
deriving DecidableEq

/-- `version_check()`: raise `FlapiVersionError` (with the remediation in
the message) when the server version is behind or ahead of the client
version; return normally when they are equal. -/
def version_check (server_version client_version : Nat × Nat × Nat) :
    Option VersionRemedy :=
  if versionLt server_version client_version then some .reinstallServer
  else if versionLt client_version server_version then some .upgradeClient
  else none

/-! ## Client receive/dispatch loop
(`FlapiBaseClient.__receive_and_dispatch`, `__unknown_msg`,
`assert_response_is_ok`, `goodbye` in `src/flapi/client/base_client.py`) -/

/-- One item handed to the dispatch loop by `FlapiComms.receive_message`:
either a complete reassembled `FlapiMsg`, or the raw bytes (including the
`0xF0`/`0xF7` framing) of a non-Flapi MIDI message. -/
inductive Received where
  | midi (data : List Nat)
  | msg (m : FlapiMsg)
deriving DecidableEq

/-- How one call of `__receive_and_dispatch` ends. -/
inductive DispatchResult where
  /-- the frame returned to the caller -/
  | msg (m : FlapiMsg)
  /-- `FlapiClientExit` raised (`CLIENT_GOODBYE` control event) -/
  | clientExit (code : Int)
  /-- `FlapiServerExit` raised (`SERVER_GOODBYE` control event) -/
  | serverExit
  /-- `FlapiInvalidMsgError` raised by the default unknown-message callback -/
  | invalidMsg (data : List Nat)
  /-- `FlapiTimeoutError`: the incoming stream ran out -/
  | timeout
deriving DecidableEq

/-- `FlapiBaseClient.__receive_and_dispatch`, driven by the list of items
the comms layer will deliver (exhaustion models the receive timeout):
answer device enquiries; discard frames whose origin is not `SERVER`
(loopback suppression); discard frames targeting neither client id 0 nor
our own id; relay `STDOUT` to the callback and keep polling; turn
`CLIENT_GOODBYE` / `SERVER_GOODBYE` into control events; return anything
else to the caller. -/
def receive_and_dispatch (own_client_id : Option Nat) :
    List Received → DispatchResult
  | [] => .timeout
  | .midi data :: rest =>
    if (data.drop 1).dropLast = DEVICE_ENQUIRY_MESSAGE then
      receive_and_dispatch own_client_id rest
    else .invalidMsg data
  | .msg m :: rest =>
    if m.origin ≠ MessageOrigin.SERVER then
      receive_and_dispatch own_client_id rest
    else if ¬ (m.client_id = 0 ∨ own_client_id = some m.client_id) then
      receive_and_dispatch own_client_id rest
    else if m.msg_type = MessageType.STDOUT then
      receive_and_dispatch own_client_id rest
    else if m.msg_type = MessageType.CLIENT_GOODBYE then
      .clientExit (parseInt (b64decode m.additional_data))
    else if m.msg_type = MessageType.SERVER_GOODBYE then
      .serverExit
    else .msg m

/-- `assert_response_is_ok(msg, expected_msg_type)`: `FlapiClientError` on
a type mismatch; nothing on `OK`; the re-raised application exception on
`ERR`; `FlapiServerError` on `FAIL`. -/
def assert_response_is_ok (msg : FlapiMsg) (expected_msg_type : Nat) :
    Option PyError :=
  if msg.msg_type ≠ expected_msg_type then some .clientError
  else if msg.status_code = MessageStatus.OK then none
  else if msg.status_code = MessageStatus.ERR then some .appException
  else if msg.status_code = MessageStatus.FAIL then some .serverError
  else none

/-- How `FlapiBaseClient.goodbye` ends. -/
inductive GoodbyeOutcome where
  /-- returned normally after `assert_response_is_ok`, clearing
  `__client_id` -/
  | disconnected
  /-- `FlapiClientExit` propagated out of the dispatch loop -/
  | clientExit (code : Int)
  /-- `FlapiServerExit` propagated -/
  | serverExit
  /-- `FlapiInvalidMsgError` propagated -/
  | invalidMsg (data : List Nat)
  /-- `FlapiTimeoutError` propagated -/
  | timeout
  /-- an exception raised by `assert_response_is_ok` -/
  | raised (e : PyError)
deriving DecidableEq

/-- Observable effect of one `FlapiBaseClient.goodbye(code)` call. -/
structure GoodbyeRun where
  /-- buffers pushed onto the request port -/
  sent : List (List Nat)
  outcome : GoodbyeOutcome
  /-- the value of `self.__client_id` afterwards -/
  client_id : Option Nat
deriving DecidableEq

/-- `FlapiBaseClient.goodbye(code)`: send `CLIENT_GOODBYE` carrying
`b64encode(str(code))`, run `__receive_and_dispatch`, then
`assert_response_is_ok`, and only then clear `self.__client_id`.  Any
exception from the dispatch loop (in particular the `FlapiClientExit`
control event) propagates with `__client_id` still bound. -/
def FlapiBaseClient.goodbye (maxDataLen client_id : Nat) (code : Int)
    (incoming : List Received) : GoodbyeRun :=
  let sent := send_message maxDataLen client_id MessageType.CLIENT_GOODBYE
    MessageStatus.OK (some (b64encode (strOfInt code)))
  match receive_and_dispatch (some client_id) incoming with
  | .msg m =>
    match assert_response_is_ok m MessageType.CLIENT_GOODBYE with
    | some e => ⟨sent, .raised e, some client_id⟩
    | none => ⟨sent, .disconnected, none⟩
  | .clientExit c => ⟨sent, .clientExit c, some client_id⟩
  | .serverExit => ⟨sent, .serverExit, some client_id⟩
  | .invalidMsg d => ⟨sent, .invalidMsg d, some client_id⟩
  | .timeout => ⟨sent, .timeout, some client_id⟩

/-! ## Server (`src/flapi/server/device_flapi_receive.py`,
`src/flapi/server/flapi_response.py`) -/

/-- ASCII bytes of a string (`str.encode()`). -/
def strBytes (s : String) : List Nat := s.data.map Char.toNat

/-- Python `str()` of a `MessageType` member. -/
def messageTypeStr (mt : Nat) : String :=
  if mt = 0 then "MessageType.CLIENT_HELLO"
  else if mt = 1 then "MessageType.CLIENT_GOODBYE"
  else if mt = 2 then "MessageType.SERVER_GOODBYE"
  else if mt = 3 then "MessageType.VERSION_QUERY"
  else if mt = 4 then "MessageType.EXEC"
  else if mt = 5 then "MessageType.EVAL"
  else "MessageType.STDOUT"

/-- The byte layout shared by every `FlapiResponse` builder:
`0xF0 + SYSEX_HEADER + [INTERNAL, client_id, msg_type, status] + payload
+ 0xF7`. -/
def mkResponse (client_id msg_type status : Nat) (payload : List Nat) :
    List Nat :=
  0xF0 :: (SYSEX_HEADER
    ++ [MessageOrigin.INTERNAL, client_id, msg_type, status]
    ++ payload ++ [0xF7])

/-- Outcome of running client-supplied code on the host. -/
inductive ExecOutcome where
  /-- the statement/expression succeeded; for `eval`, `payload` is the
  serialized (`encode_python_object`) result -/
  | ok (payload : List Nat)
  /-- an exception was raised; `payload` is the serialized exception -/
  | err (payload : List Nat)

/-- Modelled from the spec: the host execution environment is an external
collaborator (`execute_in_scope(code, scope)` / `evaluate_in_scope(expr,
scope)` together with `serialize`, spec §6).  `fl_exec`/`fl_eval` invoke
Python `exec`/`eval` against the client scope and `encode_python_object`
on the outcome; none of that is part of the protocol core, so it is
abstracted as an oracle from (is-eval?, decoded source) to an outcome. -/
def PyOracle := Bool → List Nat → ExecOutcome

/-- `client_hello(res, data)`: if the id is already in
`connected_clients`, take no action (and queue no response); otherwise
queue the `CLIENT_HELLO` `OK` acknowledgement and create the session.
Returns the new table and the queued responses. -/
def client_hello (table : List Nat) (client_id : Nat) :
    List Nat × List (List Nat) :=
  if client_id ∈ table then (table, [])
  else
    (table ++ [client_id],
     [mkResponse client_id MessageType.CLIENT_HELLO MessageStatus.OK []])

/-- `client_goodbye(res, data)`: decode the exit code
(`int(b64decode(data).decode())`), pop the session (`KeyError` when the id
is not connected), and queue a `CLIENT_GOODBYE` `OK` acknowledgement
carrying `b64encode(str(code).encode())`. -/
def client_goodbye (table : List Nat) (client_id : Nat) (data : List Nat) :
    PyResult (List Nat × List (List Nat)) :=
  let code := parseInt (b64decode data)
  if client_id ∈ table then
    .ok (table.erase client_id,
      [mkResponse client_id MessageType.CLIENT_GOODBYE MessageStatus.OK
        (b64encode (strOfInt code))])
  else .error .keyError

/-- What the server's `OnSysEx` callback did with one event. -/
inductive ServerOutcome where
  /-- not a Flapi message, or a non-client origin: ignored -/
  | ignored
  /-- a handler ran and the queued responses were sent -/
  | handled
  /-- no handler registered for the message type: `OnSysEx` returned the
  `FlapiResponse` (with the queued `FAIL` message) before reaching
  `res.send()` -/
  | unknownType
  /-- a Python exception escaped -/
  | raised (e : PyError)
deriving DecidableEq

/-- Observable effect of one server `OnSysEx` call. -/
structure ServerStep where
  /-- `connected_clients` afterwards (the set of session ids) -/
  table : List Nat
  /-- response buffers actually dispatched to the respond script -/
  sent : List (List Nat)
  /-- response buffers queued on the `FlapiResponse` but never sent -/
  pending : List (List Nat)
  outcome : ServerOutcome
deriving DecidableEq

/-- The `message_handlers` dispatch of the server's `OnSysEx`, after the
origin check: run the registered handler (`CLIENT_HELLO`,
`CLIENT_GOODBYE`, `VERSION_QUERY`, `EXEC`, `EVAL`) and send the queued
responses; for a type with no registered entry (`SERVER_GOODBYE`,
`STDOUT`), queue a `FAIL` diagnostic on the `FlapiResponse` and return it
before the send step is reached. -/
def serverHandle (oracle : PyOracle) (table : List Nat)
    (client_id mt : Nat) (data : List Nat) : ServerStep :=
  if mt = MessageType.CLIENT_HELLO then
    let r := client_hello table client_id
    ⟨r.1, r.2, [], .handled⟩
  else if mt = MessageType.CLIENT_GOODBYE then
    match client_goodbye table client_id data with
    | .ok r => ⟨r.1, r.2, [], .handled⟩
    | .error e => ⟨table, [], [], .raised e⟩
  else if mt = MessageType.VERSION_QUERY then
    ⟨table,
     [mkResponse client_id MessageType.VERSION_QUERY MessageStatus.OK
       [VERSION.1, VERSION.2.1, VERSION.2.2]],
     [], .handled⟩
  else if mt = MessageType.EXEC then
    match oracle false (b64decode data) with
    | .ok _ =>
      ⟨table,
       [mkResponse client_id MessageType.EXEC MessageStatus.OK []],
       [], .handled⟩
    | .err p =>
      ⟨table,
       [mkResponse client_id MessageType.EXEC MessageStatus.ERR p],
       [], .handled⟩
  else if mt = MessageType.EVAL then
    match oracle true (b64decode data) with
    | .ok p =>
      ⟨table,
       [mkResponse client_id MessageType.EVAL MessageStatus.OK p],
       [], .handled⟩
    | .err p =>
      ⟨table,
       [mkResponse client_id MessageType.EVAL MessageStatus.ERR p],
       [], .handled⟩
  else
    ⟨table, [],
     [mkResponse client_id mt MessageStatus.FAIL
       (b64encode (strBytes ("Unknown message type "
         ++ messageTypeStr mt)))],
     .unknownType⟩

/-- The server's `OnSysEx` (receive script): strip and check the header,
read origin / client id / message type (the `MessageType` conversion
raises `ValueError` on a non-member byte), ignore non-client origins, then
dispatch on the message type via `serverHandle`. -/
def serverOnSysEx (oracle : PyOracle) (table : List Nat)
    (sysex : List Nat) : ServerStep :=
  let header := (sysex.drop 1).take 6
  let sysex_data := (sysex.drop 7).dropLast
  if header ≠ SYSEX_HEADER then ⟨table, [], [], .ignored⟩
  else if sysex_data.length < 3 then ⟨table, [], [], .raised .indexError⟩
  else
    let message_origin := sysex_data.getD 0 0
    let client_id := sysex_data.getD 1 0
    let mt := sysex_data.getD 2 0
    if ¬ MessageType.valid mt then ⟨table, [], [], .raised .valueError⟩
    else
      let data := sysex_data.drop 3
      if message_origin ≠ MessageOrigin.CLIENT then ⟨table, [], [], .ignored⟩
      else serverHandle oracle table client_id mt data

/-- The field-extraction steps of the server's `OnSysEx`, in isolation:
what it reads as origin, client id, message type and remaining data from
one sysex event (`none` when the event is rejected or raises before the
origin check completes). -/
def serverExtract (sysex : List Nat) :
    Option (Nat × Nat × Nat × List Nat) :=
  let header := (sysex.drop 1).take 6
  let sysex_data := (sysex.drop 7).dropLast
  if header ≠ SYSEX_HEADER then none
  else if sysex_data.length < 3 then none
  else if ¬ MessageType.valid (sysex_data.getD 2 0) then none
  else some
    (sysex_data.getD 0 0, sysex_data.getD 1 0, sysex_data.getD 2 0,
     sysex_data.drop 3)

/-- The respond script's `OnSysEx`
(`src/flapi/server/device_flapi_respond.py`): forward `INTERNAL`-origin
Flapi messages to the client, rewriting the origin byte to `SERVER`;
ignore everything else. -/
def relayOnSysEx (sysex : List Nat) : Option (List Nat) :=
  let header := (sysex.drop 1).take 6
  let sysex_data := sysex.drop 7
  if header ≠ SYSEX_HEADER then none
  else if sysex_data.getD 0 0 ≠ MessageOrigin.INTERNAL then none
  else some (0xF0 :: (SYSEX_HEADER ++ [MessageOrigin.SERVER]
    ++ sysex_data.drop 1))

/-! ## Wire-level request frames -/

/-- A well-formed client-origin request event in the server's own wire
format: `0xF0 + SYSEX_HEADER + [CLIENT, client_id, msg_type] + data
+ 0xF7`. -/
def requestFrame (client_id mt : Nat) (data : List Nat) : List Nat :=
  0xF0 :: (SYSEX_HEADER ++ [MessageOrigin.CLIENT, client_id, mt]
    ++ data ++ [0xF7])

/-! ## Supporting lemmas -/

theorem valLE_natDigitsFuel (fuel : Nat) :
    ∀ n : Nat, n ≤ fuel → valLE (natDigitsFuel fuel n) = n := by
  induction fuel with
  | zero => intro n hn; interval_cases n; rfl
  | succ fuel ih =>
    intro n hn
    match n with
    | 0 => rfl
    | m + 1 =>
      have hdiv : (m + 1) / 10 ≤ fuel := by omega
      simp only [natDigitsFuel, valLE, ih _ hdiv]
      omega

theorem valLE_natDigits (n : Nat) : valLE (natDigits n) = n :=
  valLE_natDigitsFuel n n le_rfl

theorem natDigitsFuel_lt_ten (fuel : Nat) :
    ∀ n : Nat, ∀ d ∈ natDigitsFuel fuel n, d < 10 := by
  induction fuel with
  | zero => intro n d hd; simp [natDigitsFuel] at hd
  | succ fuel ih =>
    intro n d hd
    match n with
    | 0 => simp [natDigitsFuel] at hd
    | m + 1 =>
      simp only [natDigitsFuel, List.mem_cons] at hd
      rcases hd with h | h
      · omega
      · exact ih _ _ h

theorem strOfNat_bounds (n : Nat) : ∀ c ∈ strOfNat n, 48 ≤ c ∧ c ≤ 57 := by
  intro c hc
  unfold strOfNat at hc
  split at hc
  · simp at hc; omega
  · simp only [List.mem_reverse, List.mem_map] at hc
    obtain ⟨d, hd, rfl⟩ := hc
    have := natDigitsFuel_lt_ten n n d hd
    omega

theorem strOfNat_ne_nil (n : Nat) : strOfNat n ≠ [] := by
  unfold strOfNat
  split
  · simp
  · simp only [ne_eq, List.reverse_eq_nil_iff, List.map_eq_nil_iff]
    rename_i h
    obtain ⟨m, rfl⟩ := Nat.exists_eq_succ_of_ne_zero h
    simp [natDigits, natDigitsFuel]

theorem parseNat_strOfNat (n : Nat) : parseNat (strOfNat n) = n := by
  unfold parseNat strOfNat
  split
  · simp [valLE]; omega
  · rw [List.map_reverse, List.reverse_reverse, List.map_map]
    have : ((fun c => c - 48) ∘ fun d => d + 48) = (id : Nat → Nat) := by
      funext d; simp
    rw [this, List.map_id]
    exact valLE_natDigits n

theorem strOfNat_head_ne_45 (n : Nat) : (strOfNat n).head? ≠ some 45 := by
  intro h
  match hs : strOfNat n with
  | [] => exact strOfNat_ne_nil n hs
  | c :: rest =>
    rw [hs] at h
    simp only [List.head?_cons, Option.some.injEq] at h
    have := strOfNat_bounds n c (by rw [hs]; exact List.mem_cons_self c rest)
    omega

/-- `int(str(c)) = c`: the decimal codec round-trips. -/
theorem parseInt_strOfInt (c : Int) : parseInt (strOfInt c) = c := by
  unfold parseInt strOfInt
  by_cases hc : c < 0
  · simp only [hc, if_true, List.head?_cons, if_pos rfl, List.drop_succ_cons,
      List.drop_zero, parseNat_strOfNat]
    omega
  · simp only [hc, if_false]
    rw [if_neg (strOfNat_head_ne_45 c.toNat), parseNat_strOfNat]
    omega

theorem b64dchar_b64char : ∀ n < 64, b64dchar (b64char n) = n := by decide

theorem b64char_ne_61 (n : Nat) : b64char n ≠ 61 := by
  unfold b64char
  split
  · omega
  · split
    · omega
    · split
      · omega
      · split <;> omega

/-- `b64decode(b64encode(bs)) = bs` for genuine byte strings. -/
theorem b64decode_b64encode :
    ∀ bs : List Nat, (∀ x ∈ bs, x < 256) → b64decode (b64encode bs) = bs
  | [], _ => rfl
  | [a], h => by
    have ha : a < 256 := h a (by simp)
    simp only [b64encode, b64decode]
    rw [if_pos trivial]
    rw [b64dchar_b64char _ (by omega), b64dchar_b64char _ (by omega)]
    exact List.cons_eq_cons.mpr ⟨by omega, rfl⟩
  | [a, b], h => by
    have ha : a < 256 := h a (by simp)
    have hb : b < 256 := h b (by simp)
    simp only [b64encode, b64decode]
    rw [if_pos trivial]
    rw [b64dchar_b64char _ (by omega), b64dchar_b64char _ (by omega),
      b64dchar_b64char _ (by omega)]
    rw [if_neg (b64char_ne_61 _)]
    exact List.cons_eq_cons.mpr ⟨by omega,
      List.cons_eq_cons.mpr ⟨by omega, rfl⟩⟩
  | a :: b :: c :: rest, h => by
    have ha : a < 256 := h a (by simp)
    have hb : b < 256 := h b (by simp)
    have hc : c < 256 := h c (by simp)
    have ih := b64decode_b64encode rest
      (fun x hx => h x (by simp [hx]))
    simp only [b64encode, b64decode]
    rw [if_neg (b64char_ne_61 _), if_neg (b64char_ne_61 _)]
    rw [b64dchar_b64char _ (by omega), b64dchar_b64char _ (by omega),
      b64dchar_b64char _ (by omega), b64dchar_b64char _ (by omega)]
    exact List.cons_eq_cons.mpr ⟨by omega, List.cons_eq_cons.mpr ⟨by omega,
      List.cons_eq_cons.mpr ⟨by omega, ih⟩⟩⟩

theorem batched_eq_nil_iff (n : Nat) (xs : List α) :
    batched n xs = [] ↔ xs = [] := by
  constructor
  · intro h
    cases xs with
    | nil => rfl
    | cons x l => simp [batched, batchedFuel] at h
  · intro h
    subst h
    rfl

theorem toBytesAux_false (m : FlapiMsg) (l : List (List Nat)) :
    toBytesAux m false l = l.map (m.mkBuf false) := by
  induction l with
  | nil => rfl
  | cons x xs ih => simp [toBytesAux, ih]

/-- `to_bytes` of an empty payload is the empty list of buffers. -/
theorem to_bytes_nil (maxDataLen : Nat) (m : FlapiMsg)
    (h : m.additional_data = []) : m.to_bytes maxDataLen = [] := by
  simp [FlapiMsg.to_bytes, batched, h, batchedFuel, toBytesAux]

/-- `to_bytes` of a non-empty payload: every chunk but the last is emitted
with the continuation byte clear, and the last chunk with it set — the
`first` flag of the reversed loop lands, unnegated, on the last buffer. -/
theorem to_bytes_eq (maxDataLen : Nat) (m : FlapiMsg)
    (hcs : batched maxDataLen m.additional_data ≠ []) :
    m.to_bytes maxDataLen =
      (batched maxDataLen m.additional_data).dropLast.map (m.mkBuf false)
        ++ [m.mkBuf true ((batched maxDataLen m.additional_data).getLast hcs)] := by
  unfold FlapiMsg.to_bytes
  generalize hb : batched maxDataLen m.additional_data = cs at hcs ⊢
  conv_lhs => rw [← List.dropLast_append_getLast hcs]
  rw [List.reverse_append, List.reverse_cons, List.reverse_nil,
    List.nil_append]
  show (toBytesAux m true (cs.getLast hcs :: cs.dropLast.reverse)).reverse = _
  rw [show toBytesAux m true (cs.getLast hcs :: cs.dropLast.reverse)
      = m.mkBuf true (cs.getLast hcs)
        :: toBytesAux m false cs.dropLast.reverse from rfl]
  rw [toBytesAux_false, List.reverse_cons, List.map_reverse,
    List.reverse_reverse]

/-- Every buffer emitted by `to_bytes` has the `mkBuf` shape, with its
chunk drawn from `batched`. -/
theorem to_bytes_mem (maxDataLen : Nat) (m : FlapiMsg) (buf : List Nat)
    (hbuf : buf ∈ m.to_bytes maxDataLen) :
    ∃ first data, data ∈ batched maxDataLen m.additional_data ∧
      buf = m.mkBuf first data := by
  by_cases hcs : batched maxDataLen m.additional_data = []
  · rw [to_bytes_nil maxDataLen m ((batched_eq_nil_iff _ _).mp hcs)] at hbuf
    simp at hbuf
  · rw [to_bytes_eq maxDataLen m hcs] at hbuf
    rw [List.mem_append] at hbuf
    rcases hbuf with h | h
    · rw [List.mem_map] at h
      obtain ⟨data, hdata, rfl⟩ := h
      exact ⟨false, data, List.dropLast_subset _ hdata, rfl⟩
    · simp only [List.mem_singleton] at h
      exact ⟨true, _, List.getLast_mem hcs, h⟩

theorem requestFrame_header (cid mt : Nat) (data : List Nat) :
    ((requestFrame cid mt data).drop 1).take 6 = SYSEX_HEADER := by
  simp [requestFrame, SYSEX_HEADER]

theorem requestFrame_body (cid mt : Nat) (data : List Nat) :
    ((requestFrame cid mt data).drop 7).dropLast
      = MessageOrigin.CLIENT :: cid :: mt :: data := by
  have h : (requestFrame cid mt data).drop 7
      = (MessageOrigin.CLIENT :: cid :: mt :: data) ++ [0xF7] := by
    simp [requestFrame, SYSEX_HEADER]
  rw [h, List.dropLast_concat]

/-- On a well-formed client request with a `MessageType`-member type byte,
the server's `OnSysEx` reduces to the handler dispatch. -/
theorem serverOnSysEx_requestFrame (oracle : PyOracle) (table : List Nat)
    (cid mt : Nat) (data : List Nat) (hmt : MessageType.valid mt = true) :
    serverOnSysEx oracle table (requestFrame cid mt data)
      = serverHandle oracle table cid mt data := by
  unfold serverOnSysEx
  rw [requestFrame_header, requestFrame_body]
  simp [hmt, MessageOrigin.CLIENT, List.getD]

theorem serverExtract_mkBuf (m : FlapiMsg) (first : Bool)
    (data : List Nat) :
    serverExtract (wrapSysex (m.mkBuf first data))
      = some (m.origin, m.client_id, if first then 1 else 0,
          m.msg_type :: m.status_code :: data) := by
  unfold serverExtract
  have hhd : ((wrapSysex (m.mkBuf first data)).drop 1).take 6
      = SYSEX_HEADER := by
    simp [wrapSysex, FlapiMsg.mkBuf, SYSEX_HEADER]
  have hbody : ((wrapSysex (m.mkBuf first data)).drop 7).dropLast
      = m.origin :: m.client_id :: (if first then 1 else 0)
          :: m.msg_type :: m.status_code :: data := by
    have h : (wrapSysex (m.mkBuf first data)).drop 7
        = (m.origin :: m.client_id :: (if first then 1 else 0)
            :: m.msg_type :: m.status_code :: data) ++ [0xF7] := by
      simp [wrapSysex, FlapiMsg.mkBuf, SYSEX_HEADER]
    rw [h, List.dropLast_concat]
  rw [hhd, hbody]
  cases first <;> simp [MessageType.valid, List.getD]

theorem strOfNat_lt_256 (n : Nat) : ∀ c ∈ strOfNat n, c < 256 := by
  intro c hc
  have := strOfNat_bounds n c hc
  omega

theorem strOfInt_lt_256 (c : Int) : ∀ x ∈ strOfInt c, x < 256 := by
  intro x hx
  unfold strOfInt at hx
  split at hx
  · rcases List.mem_cons.mp hx with h | h
    · omega
    · exact strOfNat_lt_256 _ x h
  · exact strOfNat_lt_256 _ x hx

/-- The exit-code payload round-trips through the wire encoding:
`int(b64decode(b64encode(str(code))))` is `code` again. -/
theorem parse_code_roundtrip (code : Int) :
    parseInt (b64decode (b64encode (strOfInt code))) = code := by
  rw [b64decode_b64encode _ (strOfInt_lt_256 code), parseInt_strOfInt]

/-! ## The claims -/

/-- **C1** — the claim asserts that encoding any frame with `to_bytes` and
reassembling the emitted buffers (finishing at the buffer whose
continuation flag is false) reproduces the frame.  The code violates this:
`to_bytes` writes the loop variable `first` unnegated into the
continuation slot, so the *last* buffer carries continuation = 1 and all
earlier buffers carry 0 — the opposite of the convention the decoder and
the code's own comment use.  At `MAX_DATA_LEN = 3`, the frame with payload
`[1,2,3,4]` reassembles to payload `[1,2,3]` (the first buffer already
reads as final), and the frame with payload `[1]` never completes at all
(its only buffer reads as "more fragments follow"). -/
theorem C1_round_trip_code_bug :
    reassemble none
      (FlapiMsg.to_bytes 3
        { origin := 0, client_id := 1, continuation := false, msg_type := 4,
          status_code := 0, additional_data := [1, 2, 3, 4] })
      = .ok (some
        { origin := 0, client_id := 1, continuation := false, msg_type := 4,
          status_code := 0, additional_data := [1, 2, 3] })
    ∧ reassemble none
        (FlapiMsg.to_bytes 3
          { origin := 0, client_id := 1, continuation := false, msg_type := 4,
            status_code := 0, additional_data := [1, 2, 3, 4] })
      ≠ .ok (some
        { origin := 0, client_id := 1, continuation := false, msg_type := 4,
          status_code := 0, additional_data := [1, 2, 3, 4] })
    ∧ reassemble none
        (FlapiMsg.to_bytes 3
          { origin := 0, client_id := 1, continuation := false, msg_type := 4,
            status_code := 0, additional_data := [1] })
      = .ok none := by
  refine ⟨by decide, by decide, by decide⟩

/-- **C2** — the claim asserts continuation = true on every buffer except
the last and false on the last.  The code emits exactly
`ceil(len/MAX_DATA_LEN)` buffers of at most `MAX_DATA_LEN` payload bytes
each (that part holds), but with the continuation flags inverted: at
`MAX_DATA_LEN = 3`, a 3-byte payload encodes to exactly one buffer whose
continuation byte is **1** (the claim requires 0), and a 4-byte payload
encodes to exactly two buffers with continuation bytes **0, 1** (the claim
requires 1, 0). -/
theorem C2_fragmentation_code_bug :
    FlapiMsg.to_bytes 3
      { origin := 0, client_id := 1, continuation := false, msg_type := 4,
        status_code := 0, additional_data := [1, 2, 3] }
      = [[0x7D, 0x46, 0x6C, 0x61, 0x70, 0x69, 0, 1, 1, 4, 0, 1, 2, 3]]
    ∧ FlapiMsg.to_bytes 3
        { origin := 0, client_id := 1, continuation := false, msg_type := 4,
          status_code := 0, additional_data := [1, 2, 3, 4] }
      = [[0x7D, 0x46, 0x6C, 0x61, 0x70, 0x69, 0, 1, 0, 4, 0, 1, 2, 3],
         [0x7D, 0x46, 0x6C, 0x61, 0x70, 0x69, 0, 1, 1, 4, 0, 4]] := by
  refine ⟨by decide, by decide⟩

/-- **C3**, counterexample — the client encoder places the continuation
flag at offset 2 and the message type at offset 3 (after the marker), but
the server's receive handler reads its message type from offset 2 and its
payload from offset 3 onwards: for the single-fragment `EXEC` frame below,
the server extracts message type 1 (the continuation byte) and payload
`[4, 0, 9]` (message type, status and payload bytes) instead of message
type 4 and payload `[9]`. -/
theorem C3_counterexample :
    FlapiMsg.to_bytes 3
      { origin := 0, client_id := 5, continuation := false, msg_type := 4,
        status_code := 0, additional_data := [9] }
      = [[0x7D, 0x46, 0x6C, 0x61, 0x70, 0x69, 0, 5, 1, 4, 0, 9]]
    ∧ serverExtract
        (wrapSysex [0x7D, 0x46, 0x6C, 0x61, 0x70, 0x69, 0, 5, 1, 4, 0, 9])
      = some (0, 5, 1, [4, 0, 9])
    ∧ serverExtract
        (wrapSysex [0x7D, 0x46, 0x6C, 0x61, 0x70, 0x69, 0, 5, 1, 4, 0, 9])
      ≠ some (0, 5, 4, [9]) := by
  refine ⟨by decide, by decide, by decide⟩

/-- **C3**, amended — every buffer emitted by the client encoder has the
layout origin, client id, continuation, message type, status, payload
(after the marker).  The server's receive handler extracts origin and
client id exactly as the client placed them, but — parsing a headerless
three-byte layout — it reads the continuation flag as the message type,
and its extracted payload is the message type byte, the status byte and
the chunk. -/
theorem C3_wire_layout_amended (maxDataLen : Nat) (m : FlapiMsg)
    (buf : List Nat) (hbuf : buf ∈ m.to_bytes maxDataLen) :
    ∃ (first : Bool) (data : List Nat),
      data ∈ batched maxDataLen m.additional_data ∧
      buf = SYSEX_HEADER ++
        [m.origin, m.client_id, if first then 1 else 0, m.msg_type,
         m.status_code] ++ data ∧
      serverExtract (wrapSysex buf)
        = some (m.origin, m.client_id, if first then 1 else 0,
            m.msg_type :: m.status_code :: data) := by
  obtain ⟨first, data, hdata, rfl⟩ := to_bytes_mem maxDataLen m buf hbuf
  exact ⟨first, data, hdata, rfl, serverExtract_mkBuf m first data⟩

/-- **C3**, amended, witness at a concrete frame and buffer. -/
theorem C3_wire_layout_amended_witness :
    ∃ (first : Bool) (data : List Nat),
      data ∈ batched 3
        (FlapiMsg.additional_data
          { origin := 0, client_id := 5, continuation := false, msg_type := 4,
            status_code := 0, additional_data := [9] }) ∧
      [0x7D, 0x46, 0x6C, 0x61, 0x70, 0x69, 0, 5, 1, 4, 0, 9]
        = SYSEX_HEADER ++ [0, 5, if first then 1 else 0, 4, 0] ++ data ∧
      serverExtract
          (wrapSysex [0x7D, 0x46, 0x6C, 0x61, 0x70, 0x69, 0, 5, 1, 4, 0, 9])
        = some (0, 5, if first then 1 else 0, 4 :: 0 :: data) :=
  C3_wire_layout_amended 3
    { origin := 0, client_id := 5, continuation := false, msg_type := 4,
      status_code := 0, additional_data := [9] }
    [0x7D, 0x46, 0x6C, 0x61, 0x70, 0x69, 0, 5, 1, 4, 0, 9] (by decide)

/-- **C4**, counterexample — with a fragment in progress (continuation
set), merging a fragment whose client id differs raises `AssertionError`
(the `assert` statements in `FlapiMsg.append`), not the invalid-message
error `FlapiInvalidMsgError` the claim names. -/
theorem C4_counterexample :
    FlapiMsg.append
      { origin := 1, client_id := 1, continuation := true, msg_type := 4,
        status_code := 0, additional_data := [1, 2, 3] }
      { origin := 1, client_id := 2, continuation := false, msg_type := 4,
        status_code := 0, additional_data := [4, 5] }
      = .error .assertionError
    ∧ FlapiMsg.append
        { origin := 1, client_id := 1, continuation := true, msg_type := 4,
          status_code := 0, additional_data := [1, 2, 3] }
        { origin := 1, client_id := 2, continuation := false, msg_type := 4,
          status_code := 0, additional_data := [4, 5] }
      ≠ .error .invalidMsg := by
  refine ⟨by decide, by decide⟩

/-- **C4**, amended — whenever a partially-assembled frame is in progress
(continuation flag set), merging a next fragment whose origin, client id
or message type differs raises an error — `AssertionError`, from the
`assert` statements, rather than `FlapiInvalidMsgError` — and the
mismatched fragment is never silently merged. -/
theorem C4_mismatch_amended (p f : FlapiMsg) (hcont : p.continuation = true)
    (hne : p.origin ≠ f.origin ∨ p.client_id ≠ f.client_id
      ∨ p.msg_type ≠ f.msg_type) :
    p.append f = .error .assertionError := by
  unfold FlapiMsg.append
  rw [hcont]
  simp only [not_true, if_false]
  split_ifs with h1 h2 h3 h4 <;> first | rfl | tauto

/-- **C4**, amended, witness. -/
theorem C4_mismatch_amended_witness :
    FlapiMsg.append
      { origin := 1, client_id := 3, continuation := true, msg_type := 5,
        status_code := 0, additional_data := [] }
      { origin := 1, client_id := 3, continuation := false, msg_type := 6,
        status_code := 0, additional_data := [7] }
      = .error .assertionError :=
  C4_mismatch_amended _ _ rfl (by right; right; decide)

/-- **C5** — sessions are per-id unique: a `CLIENT_HELLO` for a free id
appends exactly one session for that id (preserving distinctness of the
table) and sends exactly one `CLIENT_HELLO` `OK` acknowledgement; a
`CLIENT_HELLO` for an id that already has a live session sends nothing and
leaves the table unchanged — so of two hello attempts for the same id,
exactly the first is acknowledged. -/
theorem C5_session_exclusivity (oracle : PyOracle) (table : List Nat)
    (cid : Nat) (data data' : List Nat) (hfree : cid ∉ table) :
    (serverOnSysEx oracle table
        (requestFrame cid MessageType.CLIENT_HELLO data)).table
      = table ++ [cid]
    ∧ (serverOnSysEx oracle table
        (requestFrame cid MessageType.CLIENT_HELLO data)).sent
      = [mkResponse cid MessageType.CLIENT_HELLO MessageStatus.OK []]
    ∧ (table ++ [cid]).count cid = 1
    ∧ (table.Nodup → (table ++ [cid]).Nodup)
    ∧ (serverOnSysEx oracle (table ++ [cid])
        (requestFrame cid MessageType.CLIENT_HELLO data')).table
      = table ++ [cid]
    ∧ (serverOnSysEx oracle (table ++ [cid])
        (requestFrame cid MessageType.CLIENT_HELLO data')).sent = [] := by
  rw [serverOnSysEx_requestFrame oracle table cid _ data (by decide),
    serverOnSysEx_requestFrame oracle (table ++ [cid]) cid _ data' (by decide)]
  refine ⟨?_, ?_, ?_, ?_, ?_, ?_⟩
  · simp [serverHandle, client_hello, hfree]
  · simp [serverHandle, client_hello, hfree]
  · rw [List.count_append, List.count_eq_zero.mpr hfree]
    simp
  · intro hnd
    simp [List.nodup_append, hnd, hfree]
  · simp [serverHandle, client_hello]
  · simp [serverHandle, client_hello]

/-- **C5**, witness. -/
theorem C5_session_exclusivity_witness :
    (serverOnSysEx (fun _ _ => ExecOutcome.ok []) [9]
        (requestFrame 5 MessageType.CLIENT_HELLO [])).table = [9] ++ [5]
    ∧ (serverOnSysEx (fun _ _ => ExecOutcome.ok []) [9]
        (requestFrame 5 MessageType.CLIENT_HELLO [])).sent
      = [mkResponse 5 MessageType.CLIENT_HELLO MessageStatus.OK []]
    ∧ ([9] ++ [5]).count 5 = 1
    ∧ (([9] : List Nat).Nodup → ([9] ++ [5]).Nodup)
    ∧ (serverOnSysEx (fun _ _ => ExecOutcome.ok []) ([9] ++ [5])
        (requestFrame 5 MessageType.CLIENT_HELLO [])).table = [9] ++ [5]
    ∧ (serverOnSysEx (fun _ _ => ExecOutcome.ok []) ([9] ++ [5])
        (requestFrame 5 MessageType.CLIENT_HELLO [])).sent = [] :=
  C5_session_exclusivity (fun _ _ => ExecOutcome.ok []) [9] 5 [] []
    (by decide)

/-- **C6** — `version_check` raises `FlapiVersionError` exactly when the
server's `(major, minor, patch)` triple differs from the client's
(compared lexicographically, in either direction), naming the remediation:
reinstall the server (`flapi install`) when the server is older, upgrade
the client package (`pip install --upgrade flapi`) when the client is
older.  In particular client `(1,0,0)` against server `(1,1,0)` raises,
and identical versions do not. -/
theorem C6_version_gate (server client : Nat × Nat × Nat) :
    ((version_check server client).isSome ↔ server ≠ client)
    ∧ (versionLt server client = true →
        version_check server client = some .reinstallServer)
    ∧ (versionLt client server = true →
        version_check server client = some .upgradeClient)
    ∧ version_check (1, 1, 0) (1, 0, 0) = some .upgradeClient
    ∧ version_check server server = none := by
  obtain ⟨s1, s2, s3⟩ := server
  obtain ⟨c1, c2, c3⟩ := client
  refine ⟨?_, ?_, ?_, by decide, ?_⟩
  · unfold version_check versionLt
    split_ifs with h1 h2 <;>
      simp_all [decide_eq_true_eq, Prod.mk.injEq] <;> omega
  · intro h
    unfold version_check
    rw [if_pos h]
  · intro h
    simp only [versionLt, decide_eq_true_eq] at h
    unfold version_check versionLt
    split_ifs with h1 <;> simp_all [decide_eq_true_eq]
    omega
  · unfold version_check versionLt
    split_ifs with h1 <;> simp_all [decide_eq_true_eq]

/-- **C6**, witness. -/
theorem C6_version_gate_witness :
    version_check (1, 1, 0) (1, 0, 0) = some .upgradeClient
    ∧ version_check (1, 0, 0) (1, 0, 0) = none :=
  ⟨(C6_version_gate (1, 1, 0) (1, 0, 0)).2.2.1 (by decide),
   (C6_version_gate (1, 0, 0) (1, 0, 0)).2.2.2.2⟩

/-- **C7**, counterexample — when the echoed `CLIENT_GOODBYE`
confirmation arrives, `FlapiBaseClient.goodbye` does not return normally
with its client id cleared: the dispatch loop raises `FlapiClientExit`
first, so the outcome is the client-exit control event and
`self.__client_id` is still bound. -/
theorem C7_counterexample :
    (FlapiBaseClient.goodbye 16 5 0
        [.msg { origin := 1, client_id := 5, continuation := false,
                msg_type := 1, status_code := 0,
                additional_data := b64encode (strOfInt 0) }]).outcome
      = .clientExit 0
    ∧ (FlapiBaseClient.goodbye 16 5 0
        [.msg { origin := 1, client_id := 5, continuation := false,
                msg_type := 1, status_code := 0,
                additional_data := b64encode (strOfInt 0) }]).outcome
      ≠ .disconnected
    ∧ (FlapiBaseClient.goodbye 16 5 0
        [.msg { origin := 1, client_id := 5, continuation := false,
                msg_type := 1, status_code := 0,
                additional_data := b64encode (strOfInt 0) }]).client_id
      = some 5 := by
  refine ⟨by decide, by decide, by decide⟩

/-- **C7**, amended — the server, processing `CLIENT_GOODBYE` for a
connected id, removes that id's session and queues-and-sends exactly one
acknowledgement carrying the same exit code (byte-identical payload), and
the respond script relays it to the client with `SERVER` origin; the
client's `goodbye(code)`, upon receiving the echoed goodbye, raises the
`FlapiClientExit` control event carrying that code — it does **not**
return normally, and its bound client id is not cleared. -/
theorem C7_goodbye_amended (oracle : PyOracle) (table : List Nat)
    (cid : Nat) (code : Int) (maxDataLen : Nat) (hconn : cid ∈ table) :
    (serverOnSysEx oracle table
        (requestFrame cid MessageType.CLIENT_GOODBYE
          (b64encode (strOfInt code)))).table = table.erase cid
    ∧ (serverOnSysEx oracle table
        (requestFrame cid MessageType.CLIENT_GOODBYE
          (b64encode (strOfInt code)))).sent
      = [mkResponse cid MessageType.CLIENT_GOODBYE MessageStatus.OK
          (b64encode (strOfInt code))]
    ∧ relayOnSysEx
        (mkResponse cid MessageType.CLIENT_GOODBYE MessageStatus.OK
          (b64encode (strOfInt code)))
      = some (0xF0 :: (SYSEX_HEADER ++ [MessageOrigin.SERVER]
          ++ (cid :: MessageType.CLIENT_GOODBYE :: MessageStatus.OK
            :: (b64encode (strOfInt code) ++ [0xF7]))))
    ∧ ∀ echo : FlapiMsg, echo.origin = MessageOrigin.SERVER →
        echo.client_id = cid →
        echo.msg_type = MessageType.CLIENT_GOODBYE →
        echo.additional_data = b64encode (strOfInt code) →
        (FlapiBaseClient.goodbye maxDataLen cid code [.msg echo]).outcome
            = .clientExit code
        ∧ (FlapiBaseClient.goodbye maxDataLen cid code
            [.msg echo]).client_id = some cid := by
  rw [serverOnSysEx_requestFrame oracle table cid _ _ (by decide)]
  refine ⟨?_, ?_, ?_, ?_⟩
  · simp [serverHandle, client_goodbye, hconn, parse_code_roundtrip,
      MessageType.CLIENT_HELLO, MessageType.CLIENT_GOODBYE]
  · simp [serverHandle, client_goodbye, hconn, parse_code_roundtrip,
      MessageType.CLIENT_HELLO, MessageType.CLIENT_GOODBYE]
  · simp [relayOnSysEx, mkResponse, SYSEX_HEADER, List.getD,
      MessageOrigin.INTERNAL, MessageOrigin.SERVER]
  · intro echo h1 h2 h3 h4
    unfold FlapiBaseClient.goodbye receive_and_dispatch
    rw [h1, h2, h3, h4]
    simp [MessageOrigin.SERVER, MessageType.STDOUT,
      MessageType.CLIENT_GOODBYE, parse_code_roundtrip]

/-- **C7**, amended, witness. -/
theorem C7_goodbye_amended_witness :
    (serverOnSysEx (fun _ _ => ExecOutcome.ok []) [5]
        (requestFrame 5 MessageType.CLIENT_GOODBYE
          (b64encode (strOfInt 0)))).sent
      = [mkResponse 5 MessageType.CLIENT_GOODBYE MessageStatus.OK
          (b64encode (strOfInt 0))]
    ∧ (FlapiBaseClient.goodbye 16 5 0
        [.msg { origin := 1, client_id := 5, continuation := false,
                msg_type := 1, status_code := 0,
                additional_data := b64encode (strOfInt 0) }]).outcome
      = .clientExit 0 :=
  ⟨(C7_goodbye_amended (fun _ _ => ExecOutcome.ok []) [5] 5 0 16
      (by decide)).2.1,
   ((C7_goodbye_amended (fun _ _ => ExecOutcome.ok []) [5] 5 0 16
      (by decide)).2.2.2
      { origin := 1, client_id := 5, continuation := false, msg_type := 1,
        status_code := 0, additional_data := b64encode (strOfInt 0) }
      rfl rfl rfl rfl).1⟩

/-- **C8** — the client's receive-and-dispatch loop never returns a frame
whose origin is not `SERVER`, nor a frame whose client id is neither 0
(broadcast) nor the client's own bound id: whatever the incoming stream,
a frame returned to the caller passed both filters. -/
theorem C8_router_filtering (own_client_id : Option Nat)
    (incoming : List Received) (m : FlapiMsg)
    (h : receive_and_dispatch own_client_id incoming = .msg m) :
    m.origin = MessageOrigin.SERVER
    ∧ (m.client_id = 0 ∨ own_client_id = some m.client_id) := by
  induction incoming with
  | nil => simp [receive_and_dispatch] at h
  | cons x rest ih =>
    cases x with
    | midi d =>
      unfold receive_and_dispatch at h
      split_ifs at h
      exact ih h
    | msg mm =>
      unfold receive_and_dispatch at h
      split_ifs at h with h1 h2 h3 h4 h5
      · exact ih h
      · exact ih h
      · simp only [DispatchResult.msg.injEq] at h
        subst h
        push_neg at h1
        exact ⟨h1, h2⟩
      · exact ih h

/-- **C8**, witness: a client-origin frame (loopback) and a frame for a
different session are both discarded before a matching frame is
returned. -/
theorem C8_router_filtering_witness :
    FlapiMsg.origin
      { origin := 1, client_id := 0, continuation := false, msg_type := 4,
        status_code := 0, additional_data := [] }
      = MessageOrigin.SERVER
    ∧ (FlapiMsg.client_id
        { origin := 1, client_id := 0, continuation := false, msg_type := 4,
          status_code := 0, additional_data := [] } = 0
      ∨ some 5 = some (FlapiMsg.client_id
          { origin := 1, client_id := 0, continuation := false, msg_type := 4,
            status_code := 0, additional_data := [] })) :=
  C8_router_filtering (some 5)
    [.msg { origin := 0, client_id := 5, continuation := false, msg_type := 4,
            status_code := 0, additional_data := [] },
     .msg { origin := 1, client_id := 9, continuation := false, msg_type := 4,
            status_code := 0, additional_data := [] },
     .msg { origin := 1, client_id := 0, continuation := false, msg_type := 4,
            status_code := 0, additional_data := [] }]
    { origin := 1, client_id := 0, continuation := false, msg_type := 4,
      status_code := 0, additional_data := [] }
    (by decide)

/-- **C9** (implicit) — a frame with an empty payload encodes to an empty
list of buffers, so `FlapiComms.send_message` performs zero port sends; in
particular the `CLIENT_HELLO` and `VERSION_QUERY` requests (which carry no
additional data) never reach the wire. -/
theorem C9_empty_payload_sends_nothing
    (maxDataLen origin cid mt st : Nat) :
    FlapiMsg.to_bytes maxDataLen
      { origin := origin, client_id := cid, continuation := false,
        msg_type := mt, status_code := st, additional_data := [] } = []
    ∧ send_message maxDataLen cid mt st none = []
    ∧ send_message maxDataLen cid MessageType.CLIENT_HELLO
        MessageStatus.OK none = []
    ∧ send_message maxDataLen cid MessageType.VERSION_QUERY
        MessageStatus.OK none = [] := by
  refine ⟨to_bytes_nil maxDataLen _ rfl, ?_, ?_, ?_⟩ <;>
    exact to_bytes_nil maxDataLen _ rfl

/-- **C10** (implicit) — for a well-formed client-origin frame whose
message type has no registered handler (`SERVER_GOODBYE` and `STDOUT` are
`MessageType` members absent from `message_handlers`), the server composes
a `FAIL` response carrying a diagnostic but returns from `OnSysEx` before
`res.send()` is reached: the queued `FAIL` stays pending, nothing is sent,
and the session table is untouched. -/
theorem C10_unknown_type_no_response (oracle : PyOracle)
    (table : List Nat) (cid : Nat) (data : List Nat) (mt : Nat)
    (hmt : mt = MessageType.SERVER_GOODBYE ∨ mt = MessageType.STDOUT) :
    (serverOnSysEx oracle table (requestFrame cid mt data)).sent = []
    ∧ (serverOnSysEx oracle table (requestFrame cid mt data)).pending
      = [mkResponse cid mt MessageStatus.FAIL
          (b64encode (strBytes ("Unknown message type "
            ++ messageTypeStr mt)))]
    ∧ (serverOnSysEx oracle table (requestFrame cid mt data)).table = table
    ∧ (serverOnSysEx oracle table (requestFrame cid mt data)).outcome
      = .unknownType := by
  have hv : MessageType.valid mt = true := by
    rcases hmt with rfl | rfl <;> decide
  rw [serverOnSysEx_requestFrame oracle table cid mt data hv]
  rcases hmt with rfl | rfl <;>
    simp [serverHandle, MessageType.CLIENT_HELLO, MessageType.CLIENT_GOODBYE,
      MessageType.VERSION_QUERY, MessageType.EXEC, MessageType.EVAL,
      MessageType.SERVER_GOODBYE, MessageType.STDOUT]

/-- **C10**, witness. -/
theorem C10_unknown_type_no_response_witness :
    (serverOnSysEx (fun _ _ => ExecOutcome.ok []) [3]
        (requestFrame 3 MessageType.SERVER_GOODBYE [1, 2])).sent = []
    ∧ (serverOnSysEx (fun _ _ => ExecOutcome.ok []) [3]
        (requestFrame 3 MessageType.SERVER_GOODBYE [1, 2])).pending
      = [mkResponse 3 MessageType.SERVER_GOODBYE MessageStatus.FAIL
          (b64encode (strBytes ("Unknown message type "
            ++ messageTypeStr MessageType.SERVER_GOODBYE)))]
    ∧ (serverOnSysEx (fun _ _ => ExecOutcome.ok []) [3]
        (requestFrame 3 MessageType.SERVER_GOODBYE [1, 2])).table = [3]
    ∧ (serverOnSysEx (fun _ _ => ExecOutcome.ok []) [3]
        (requestFrame 3 MessageType.SERVER_GOODBYE [1, 2])).outcome
      = .unknownType :=
  C10_unknown_type_no_response (fun _ _ => ExecOutcome.ok []) [3] 3 [1, 2]
    MessageType.SERVER_GOODBYE (Or.inl rfl)

end Flapi
